import Mathlib

/-!
Shallow embedding of `src/pal_hardware_gazebo.cpp` (PAL hardware layer for
Gazebo).  Pure data is modelled by Lean structures; the stateful members of
`PalHardwareGazebo` become explicit fields of a `Facade` record threaded
through the operations.  Scalar simulation values (doubles in the source)
are modelled as `Int`: none of the verified properties depend on real
arithmetic, only on which buffer receives which source value.

Code of the repository that is not under `src/` (the `internal::*` resource
bodies, `initActiveWriteResources`) is modelled from the spec; each such
definition carries a doc comment starting with `Modelled from the spec:`.
-/

/-- The four capability variants selected by the if-else chain in
`PalHardwareGazebo::initSim` (lines 151-166). -/
inductive Variant where
  | jointState
  | positionJoint
  | velocityJoint
  | effortJoint
deriving DecidableEq, Repr

/-- The fixed mapping from declared hardware-interface-type strings to
capability variants, exactly the if-else chain of `initSim` lines 151-166;
any other string leaves `res` null (no variant). -/
def ifaceToVariant (s : String) : Option Variant :=
  if s = "hardware_interface/JointStateInterface" then some Variant.jointState
  else if s = "hardware_interface/PositionJointInterface" then some Variant.positionJoint
  else if s = "hardware_interface/VelocityJointInterface" then some Variant.velocityJoint
  else if s = "hardware_interface/EffortJointInterface" then some Variant.effortJoint
  else none

/-- One joint of a transmission description: name plus declared
hardware-interface-type identifiers (`transmission_interface::JointInfo`). -/
structure JointInfo where
  name : String
  hardware_interfaces : List String
deriving DecidableEq, Repr

/-- One transmission description (`transmission_interface::TransmissionInfo`),
reduced to the field `initSim` iterates over. -/
structure TransmissionInfo where
  joints : List JointInfo
deriving DecidableEq, Repr

/-- Parameter-server configuration of one force-torque sensor: its id under
the `force_torque` namespace and the fetched `frame` and `sensor_joint`
parameters (cpp lines 58-68). -/
structure FTSensorParams where
  id : String
  frame : String
  sensor_joint : String
deriving DecidableEq, Repr

/-- Parameter-server configuration of one IMU sensor: its id under the
`imu` namespace and the fetched `frame` parameter (cpp lines 91-99). -/
structure ImuSensorParams where
  id : String
  frame : String
deriving DecidableEq, Repr

/-- The whole declarative input consumed by `initSim`: the transmission
descriptions and the sensor configuration, plus the optional
`gazebo_ros_control/enable_joint_mode_switching` parameter (line 207). -/
structure Config where
  transmissions : List TransmissionInfo
  force_torque : List FTSensorParams
  imu : List ImuSensorParams
  enable_joint_mode_switching : Option Bool
deriving DecidableEq, Repr

/-- The external simulation context: which joint names
`model->GetJoint` resolves, and whether the fixed-name sensor
`"imu_sensor"` resolves to an inertial sensor in the sensor manager
(cpp lines 73 and 101-103). -/
structure ExtModel where
  joints : List String
  hasImuSensor : Bool
deriving DecidableEq, Repr

/-- Record `ForceTorqueSensorDefinition`: identity, attachment joint, frame, and
the live force/torque buffers whose addresses the handle exposes. -/
structure ForceTorqueSensorDefinition where
  sensorName : String
  sensorJointName : String
  sensorFrame : String
  force : Int × Int × Int
  torque : Int × Int × Int
deriving DecidableEq, Repr

/-- Record `ImuSensorDefinition`: identity, frame, and the live orientation /
angular-velocity / linear-acceleration buffers. -/
structure ImuSensorDefinition where
  sensorName : String
  sensorFrame : String
  orientation : Int × Int × Int × Int
  base_ang_vel : Int × Int × Int
  linear_acceleration : Int × Int × Int
deriving DecidableEq, Repr

/-- The external world state sampled and commanded by the cycle: per-joint
actuator state, per-joint command targets of the three writable channels,
per-joint constraint wrench, and the single inertial source's readings. -/
structure World where
  pos : String → Int
  vel : String → Int
  eff : String → Int
  posCmd : String → Int
  velCmd : String → Int
  effCmd : String → Int
  forceAt : String → Int × Int × Int
  torqueAt : String → Int × Int × Int
  imuOrientation : Int × Int × Int × Int
  imuAngularVelocity : Int × Int × Int
  imuLinearAcceleration : Int × Int × Int

/-- The mutable members of `PalHardwareGazebo` relevant to the verified
properties: the managed resource list `rw_resources_`, the active-writer
set `active_w_resources_rt_`, the flags, the sensor definition lists, the
registered sensor interface handles (name, frame), and the per-joint
command/state buffers owned by the resources. -/
structure Facade where
  rw_resources : List (String × Variant)
  active_w_resources : List (String × Variant)
  e_stop_active : Bool
  mode_switch_enabled : Bool
  forceTorqueSensorDefinitions : List ForceTorqueSensorDefinition
  imuSensorDefinitions : List ImuSensorDefinition
  ftHandles : List (String × String)
  imuHandles : List (String × String)
  cmdBuf : String → Variant → Int
  bufPos : String → Int
  bufVel : String → Int
  bufEff : String → Int

/-- Outcome of one `res->init(...)` call as distinguished by the three
catch branches of `initSim` lines 182-195: success, the
`internal::ExistingResourceException`, a `std::runtime_error`, or any
other thrown object. -/
inductive InitOutcome where
  | success
  | existingResource
  | runtimeError
  | otherError
deriving DecidableEq, Repr

/-- Modelled from the spec: the body of `internal::JointState` /
`PositionJoint` / `VelocityJoint` / `EffortJoint` `init` is not under
`src/`.  Per §4.2 it binds the named joint and fails if the joint does not
exist in the external model; per §4.1/§7 an equivalent already-registered
resource for the same (joint, variant) pair raises the detectable
duplicate condition. -/
def resourceInit (ext : ExtModel) (jn : String) (v : Variant)
    (acc : List (String × Variant)) : InitOutcome :=
  if (jn, v) ∈ acc then InitOutcome.existingResource
  else if jn ∈ ext.joints then InitOutcome.success
  else InitOutcome.runtimeError

/-- The factory loop of `initSim` lines 141-200, flattened to the sequence
of (joint name, declared interface type) pairs it visits, parameterized by
the init outcome function.  Unrecognized types leave `res` null and are
skipped; success appends to `rw_resources_`; the duplicate condition is
swallowed; a runtime error or any other failure makes `initSim` return
false (modelled as `none`). -/
def processPairs (initFn : String → Variant → List (String × Variant) → InitOutcome) :
    List (String × String) → List (String × Variant) → Option (List (String × Variant))
  | [], acc => some acc
  | (jn, ifc) :: rest, acc =>
    match ifaceToVariant ifc with
    | none => processPairs initFn rest acc
    | some v =>
      match initFn jn v acc with
      | InitOutcome.success => processPairs initFn rest (acc ++ [(jn, v)])
      | InitOutcome.existingResource => processPairs initFn rest acc
      | InitOutcome.runtimeError => none
      | InitOutcome.otherError => none

/-- The (joint name, interface type) pairs visited by the triple
BOOST_FOREACH nest of `initSim` lines 141-145, in visitation order. -/
def allPairs (cfg : Config) : List (String × String) :=
  cfg.transmissions.flatMap fun tr =>
    tr.joints.flatMap fun j =>
      j.hardware_interfaces.map fun ifc => (j.name, ifc)

/-- Embedding of `PalHardwareGazebo::parseForceTorqueSensors` (lines 52-83): for each
declared sensor id in order, resolve the attachment joint in the model;
if resolution fails, return false at once (the current definition is not
appended, later ids are not visited); otherwise append the definition.
The accumulator is the member list `forceTorqueSensorDefinitions_`. -/
def parseForceTorqueSensors (ext : ExtModel) :
    List FTSensorParams → List ForceTorqueSensorDefinition →
    Bool × List ForceTorqueSensorDefinition
  | [], acc => (true, acc)
  | c :: rest, acc =>
    if c.sensor_joint ∈ ext.joints then
      parseForceTorqueSensors ext rest
        (acc ++ [⟨c.id, c.sensor_joint, c.frame, (0, 0, 0), (0, 0, 0)⟩])
    else (false, acc)

/-- Embedding of `PalHardwareGazebo::parseIMUSensors` (lines 85-115): for each declared
sensor id in order, resolve the single fixed-name sensor `"imu_sensor"`;
failure returns false at once, success appends a definition bound to that
one source.  Note: `initSim` never invokes this function. -/
def parseIMUSensors (ext : ExtModel) :
    List ImuSensorParams → List ImuSensorDefinition →
    Bool × List ImuSensorDefinition
  | [], acc => (true, acc)
  | c :: rest, acc =>
    if ext.hasImuSensor then
      parseIMUSensors ext rest
        (acc ++ [⟨c.id, c.frame, (0, 0, 0, 0), (0, 0, 0), (0, 0, 0)⟩])
    else (false, acc)

/-- Whether a variant supports writing (JointState is read-only). -/
def isWritable : Variant → Bool
  | Variant.jointState => false
  | _ => true

/-- Embedding of `PalHardwareGazebo::initSim` (lines 121-244).  Builds the resource
list via the factory loop (abort on fatal outcome), clears the emergency
stop, reads the mode-switch flag (default true), computes the initial
active-writer set (`initActiveWriteResources` is not under `src/`;
modelled from the spec: defaults to all writable resources), then calls
`parseForceTorqueSensors` at line 214 WITHOUT checking its return value,
registers one force-torque handle per accumulated definition, and
registers one inertial handle per element of `imuSensorDefinitions_` —
which is always empty because `parseIMUSensors` is never invoked. -/
def initSim (cfg : Config) (ext : ExtModel) : Option Facade :=
  match processPairs (resourceInit ext) (allPairs cfg) [] with
  | none => none
  | some res =>
    let ftParse := parseForceTorqueSensors ext cfg.force_torque []
    let ftDefs := ftParse.2
    let imuDefs : List ImuSensorDefinition := []
    some
      { rw_resources := res
        active_w_resources := res.filter fun r => isWritable r.2
        e_stop_active := false
        mode_switch_enabled := cfg.enable_joint_mode_switching.getD true
        forceTorqueSensorDefinitions := ftDefs
        imuSensorDefinitions := imuDefs
        ftHandles := ftDefs.map fun d => (d.sensorName, d.sensorFrame)
        imuHandles := imuDefs.map fun d => (d.sensorName, d.sensorFrame)
        cmdBuf := fun _ _ => 0
        bufPos := fun _ => 0
        bufVel := fun _ => 0
        bufEff := fun _ => 0 }

/-- Modelled from the spec: the body of each resource's `read` is not
under `src/`.  Per §4.2 it copies the joint's current actuator state from
the external source into the resource's exposed buffers, side-effect-free
on the source; the emergency-stop flag is passed in (cpp line 251) but
reading is unconditional. -/
def resourceRead (w : World) (eStop : Bool) (g : Facade) (r : String × Variant) : Facade :=
  let _ := eStop
  { g with
    bufPos := fun j => if j = r.1 then w.pos r.1 else g.bufPos j
    bufVel := fun j => if j = r.1 then w.vel r.1 else g.bufVel j
    bufEff := fun j => if j = r.1 then w.eff r.1 else g.bufEff j }

/-- The force-torque refresh of `readSim` lines 255-264: both buffers are
overwritten from the attachment joint's current constraint wrench. -/
def ftRefresh (w : World) (d : ForceTorqueSensorDefinition) : ForceTorqueSensorDefinition :=
  { d with force := w.forceAt d.sensorJointName, torque := w.torqueAt d.sensorJointName }

/-- The IMU refresh of `readSim` lines 267-285: orientation, angular
velocity and linear acceleration are overwritten from the definition's
(single, shared) inertial source. -/
def imuRefresh (w : World) (d : ImuSensorDefinition) : ImuSensorDefinition :=
  { d with
    orientation := w.imuOrientation
    base_ang_vel := w.imuAngularVelocity
    linear_acceleration := w.imuLinearAcceleration }

/-- Embedding of `PalHardwareGazebo::readSim` (lines 246-288): read every resource in
`rw_resources_` passing `e_stop_active_`, then refresh every force-torque
definition's buffers, then every IMU definition's buffers. -/
def readSim (f : Facade) (w : World) : Facade :=
  let f1 := f.rw_resources.foldl (resourceRead w f.e_stop_active) f
  { f1 with
    forceTorqueSensorDefinitions := f1.forceTorqueSensorDefinitions.map (ftRefresh w)
    imuSensorDefinitions := f1.imuSensorDefinitions.map (imuRefresh w) }

/-- Modelled from the spec: the body of each resource's `write` is not
under `src/`.  Per §4.2 it applies the resource's command buffer to the
external command target of its joint and variant; when the emergency-stop
flag is set it applies the variant's safe value instead (zero velocity or
effort, hold current position).  JointState is read-only: no effect. -/
def resourceWrite (f : Facade) (eStop : Bool) (w : World) (r : String × Variant) : World :=
  match r.2 with
  | Variant.jointState => w
  | Variant.positionJoint =>
    let v := if eStop then w.pos r.1 else f.cmdBuf r.1 Variant.positionJoint
    { w with posCmd := fun j => if j = r.1 then v else w.posCmd j }
  | Variant.velocityJoint =>
    let v := if eStop then 0 else f.cmdBuf r.1 Variant.velocityJoint
    { w with velCmd := fun j => if j = r.1 then v else w.velCmd j }
  | Variant.effortJoint =>
    let v := if eStop then 0 else f.cmdBuf r.1 Variant.effortJoint
    { w with effCmd := fun j => if j = r.1 then v else w.effCmd j }

/-- Embedding of `PalHardwareGazebo::writeSim` (lines 290-298): under the lock, invoke
`write` on exactly the resources in `active_w_resources_rt_`, passing
`e_stop_active_`.  No member of the facade is mutated. -/
def writeSim (f : Facade) (w : World) : Facade × World :=
  (f, f.active_w_resources.foldl (resourceWrite f f.e_stop_active) w)

/-- The external command target of a (joint, variant) channel; JointState
has no command channel, represented by the constant 0. -/
def World.cmdOf (w : World) (j : String) : Variant → Int
  | Variant.jointState => 0
  | Variant.positionJoint => w.posCmd j
  | Variant.velocityJoint => w.velCmd j
  | Variant.effortJoint => w.effCmd j

/-- The variant-specific safe value applied under emergency stop: hold
current position, zero velocity, zero effort. -/
def safeValue (w : World) (j : String) : Variant → Int
  | Variant.jointState => 0
  | Variant.positionJoint => w.pos j
  | Variant.velocityJoint => 0
  | Variant.effortJoint => 0

/-- The definition built by `parseForceTorqueSensors` for one accepted
sensor configuration (cpp lines 69-71, buffers zero-initialized). -/
def ftDefOf (c : FTSensorParams) : ForceTorqueSensorDefinition :=
  ⟨c.id, c.sensor_joint, c.frame, (0, 0, 0), (0, 0, 0)⟩

/-! ### Concrete fixtures used by closed evaluation and witness theorems -/

/-- A configuration declaring one force-torque sensor attached to joint
`j1`, with no transmissions and no IMU declarations. -/
def cfgC1 : Config := ⟨[], [⟨"ft0", "base_link", "j1"⟩], [], none⟩

/-- An external model without any joints and without inertial sensor. -/
def extC1 : ExtModel := ⟨[], false⟩

/-- A configuration declaring two logical IMU sensors and nothing else. -/
def cfgC2 : Config := ⟨[], [], [⟨"imu0", "base"⟩, ⟨"imu1", "base"⟩], none⟩

/-- An external model exposing the single inertial source `imu_sensor`. -/
def extC2 : ExtModel := ⟨[], true⟩

/-- A configuration declaring joint `j1` with the position interface. -/
def cfgC3 : Config :=
  ⟨[⟨[⟨"j1", ["hardware_interface/PositionJointInterface"]⟩]⟩], [], [], none⟩

/-- A configuration declaring joint `j1` with the position interface in
two separate transmissions. -/
def cfgC4 : Config :=
  ⟨[⟨[⟨"j1", ["hardware_interface/PositionJointInterface"]⟩]⟩,
    ⟨[⟨"j1", ["hardware_interface/PositionJointInterface"]⟩]⟩], [], [], none⟩

/-- An external model exposing exactly joint `j1`. -/
def extC4 : ExtModel := ⟨["j1"], false⟩

/-- The facade produced by `initSim cfgC4 extC4`. -/
def facC4 : Facade :=
  ⟨[("j1", Variant.positionJoint)], [("j1", Variant.positionJoint)], false, true,
   [], [], [], [], fun _ _ => 0, fun _ => 0, fun _ => 0, fun _ => 0⟩

/-- A world fixture with pairwise-distinct source values. -/
def wFix : World :=
  ⟨fun _ => 11, fun _ => 12, fun _ => 13, fun _ => 21, fun _ => 22, fun _ => 23,
   fun _ => (1, 2, 3), fun _ => (4, 5, 6), (31, 32, 33, 34), (41, 42, 43), (51, 52, 53)⟩

/-- A facade fixture with one active position writer on `j1`, one inactive
velocity writer on `j2`, one force-torque definition and one IMU
definition, emergency stop clear, command buffers at 7. -/
def facFix : Facade :=
  ⟨[("j1", Variant.positionJoint), ("j2", Variant.velocityJoint)],
   [("j1", Variant.positionJoint)], false, true,
   [⟨"ft0", "j1", "base_link", (0, 0, 0), (0, 0, 0)⟩],
   [⟨"imu0", "base", (0, 0, 0, 0), (0, 0, 0), (0, 0, 0)⟩],
   [("ft0", "base_link")], [("imu0", "base")],
   fun _ _ => 7, fun _ => 0, fun _ => 0, fun _ => 0⟩

/-- Fixture `facFix` with the emergency stop asserted. -/
def facFixEStop : Facade :=
  { facFix with e_stop_active := true, active_w_resources := facFix.rw_resources }

/-- A configuration declaring two force-torque sensors, the first attached
to the resolvable joint `j1`, the second to the absent joint `jmiss`. -/
def cfgC10 : Config :=
  ⟨[], [⟨"ft0", "frame0", "j1"⟩, ⟨"ft1", "frame1", "jmiss"⟩], [], none⟩

/-- An external model exposing exactly joint `j1`. -/
def extC10 : ExtModel := ⟨["j1"], false⟩

/-- The facade produced by `initSim cfgC10 extC10`: the definition parsed
before the failure is retained and has its handle registered. -/
def facC10 : Facade :=
  ⟨[], [], false, true,
   [⟨"ft0", "j1", "frame0", (0, 0, 0), (0, 0, 0)⟩], [],
   [("ft0", "frame0")], [],
   fun _ _ => 0, fun _ => 0, fun _ => 0, fun _ => 0⟩

/-! ### Helper lemmas about the factory loop -/

theorem resourceInit_success_mem {ext : ExtModel} {jn : String} {v : Variant}
    {acc : List (String × Variant)}
    (h : resourceInit ext jn v acc = InitOutcome.success) : jn ∈ ext.joints := by
  unfold resourceInit at h
  split_ifs at h with h1 h2
  · exact h2

theorem resourceInit_success_notMem {ext : ExtModel} {jn : String} {v : Variant}
    {acc : List (String × Variant)}
    (h : resourceInit ext jn v acc = InitOutcome.success) : (jn, v) ∉ acc := by
  unfold resourceInit at h
  split_ifs at h with h1 h2
  · exact h1

theorem processPairs_skip (initFn : String → Variant → List (String × Variant) → InitOutcome)
    (jn ifc : String) (rest : List (String × String)) (acc : List (String × Variant))
    (h : ifaceToVariant ifc = none) :
    processPairs initFn ((jn, ifc) :: rest) acc = processPairs initFn rest acc := by
  simp [processPairs, h]

theorem processPairs_fatal (initFn : String → Variant → List (String × Variant) → InitOutcome)
    (jn ifc : String) (v : Variant) (rest : List (String × String))
    (acc : List (String × Variant)) (hv : ifaceToVariant ifc = some v)
    (h : initFn jn v acc = InitOutcome.runtimeError ∨ initFn jn v acc = InitOutcome.otherError) :
    processPairs initFn ((jn, ifc) :: rest) acc = none := by
  rcases h with h | h <;> simp [processPairs, hv, h]

theorem processPairs_filter (initFn : String → Variant → List (String × Variant) → InitOutcome) :
    ∀ (pairs : List (String × String)) (acc : List (String × Variant)),
      processPairs initFn pairs acc =
        processPairs initFn (pairs.filter fun p => (ifaceToVariant p.2).isSome) acc
  | [], acc => rfl
  | (jn, ifc) :: rest, acc => by
    cases hv : ifaceToVariant ifc with
    | none =>
      rw [processPairs_skip initFn jn ifc rest acc hv, processPairs_filter initFn rest acc]
      simp [hv]
    | some v =>
      have hkeep : ((jn, ifc) :: rest).filter (fun p => (ifaceToVariant p.2).isSome)
          = (jn, ifc) :: rest.filter (fun p => (ifaceToVariant p.2).isSome) := by
        simp [List.filter_cons, hv]
      rw [hkeep]
      cases ho : initFn jn v acc <;>
        simp [processPairs, hv, ho] <;>
        exact processPairs_filter initFn rest _

theorem processPairs_none_of_missing (ext : ExtModel) :
    ∀ (pairs : List (String × String)) (acc : List (String × Variant)),
      (∀ p ∈ acc, p.1 ∈ ext.joints) →
      ∀ jn ifc v, (jn, ifc) ∈ pairs → ifaceToVariant ifc = some v →
        jn ∉ ext.joints →
        processPairs (resourceInit ext) pairs acc = none
  | [], acc, _, jn, ifc, v, hmem, _, _ => absurd hmem (List.not_mem_nil _)
  | (jn', ifc') :: rest, acc, hacc, jn, ifc, v, hmem, hv, hjn => by
    rcases List.mem_cons.mp hmem with heq | htail
    · obtain ⟨h1, h2⟩ := Prod.mk.injEq .. ▸ heq
      subst h1; subst h2
      have hnm : (jn, v) ∉ acc := fun hin => hjn (hacc _ hin)
      have ho : resourceInit ext jn v acc = InitOutcome.runtimeError := by
        unfold resourceInit
        simp [hnm, hjn]
      exact processPairs_fatal _ jn ifc v rest acc hv (Or.inl ho)
    · cases hv' : ifaceToVariant ifc' with
      | none =>
        rw [processPairs_skip _ jn' ifc' rest acc hv']
        exact processPairs_none_of_missing ext rest acc hacc jn ifc v htail hv hjn
      | some v' =>
        cases ho : resourceInit ext jn' v' acc with
        | success =>
          have hacc' : ∀ p ∈ acc ++ [(jn', v')], p.1 ∈ ext.joints := by
            intro p hp
            rcases List.mem_append.mp hp with hp | hp
            · exact hacc p hp
            · simp at hp
              rw [hp]
              exact resourceInit_success_mem ho
          simp only [processPairs, hv', ho]
          exact processPairs_none_of_missing ext rest _ hacc' jn ifc v htail hv hjn
        | existingResource =>
          simp only [processPairs, hv', ho]
          exact processPairs_none_of_missing ext rest acc hacc jn ifc v htail hv hjn
        | runtimeError => simp [processPairs, hv', ho]
        | otherError => simp [processPairs, hv', ho]

theorem processPairs_subset_nodup (ext : ExtModel) :
    ∀ (pairs : List (String × String)) (acc res : List (String × Variant)),
      processPairs (resourceInit ext) pairs acc = some res →
      acc ⊆ res ∧ (acc.Nodup → res.Nodup)
  | [], acc, res, h => by
    have : acc = res := Option.some.inj h
    subst this
    exact ⟨List.Subset.refl _, id⟩
  | (jn', ifc') :: rest, acc, res, h => by
    cases hv' : ifaceToVariant ifc' with
    | none =>
      rw [processPairs_skip _ jn' ifc' rest acc hv'] at h
      exact processPairs_subset_nodup ext rest acc res h
    | some v' =>
      cases ho : resourceInit ext jn' v' acc with
      | success =>
        simp only [processPairs, hv', ho] at h
        obtain ⟨hsub, hnd⟩ := processPairs_subset_nodup ext rest _ res h
        refine ⟨fun x hx => hsub (List.mem_append.mpr (Or.inl hx)), fun hacc => hnd ?_⟩
        have hnotmem := resourceInit_success_notMem ho
        simp [List.nodup_append, hacc, hnotmem]
      | existingResource =>
        simp only [processPairs, hv', ho] at h
        exact processPairs_subset_nodup ext rest acc res h
      | runtimeError => simp [processPairs, hv', ho] at h
      | otherError => simp [processPairs, hv', ho] at h

theorem count_eq_one_of_nodup_mem {α : Type} [BEq α] [LawfulBEq α] :
    ∀ {l : List α} {a : α}, l.Nodup → a ∈ l → l.count a = 1
  | b :: t, a, hnd, hmem => by
    rw [List.count_cons]
    by_cases hba : b = a
    · subst hba
      have hnin : b ∉ t := (List.nodup_cons.mp hnd).1
      simp [List.count_eq_zero.mpr hnin]
    · have hat : a ∈ t := by
        rcases List.mem_cons.mp hmem with h | h
        · exact absurd h.symm hba
        · exact h
      have := count_eq_one_of_nodup_mem (List.nodup_cons.mp hnd).2 hat
      simp [this, hba]

theorem initSim_some_fields {cfg : Config} {ext : ExtModel} {f : Facade}
    (h : initSim cfg ext = some f) :
    processPairs (resourceInit ext) (allPairs cfg) [] = some f.rw_resources ∧
    f.e_stop_active = false ∧
    f.forceTorqueSensorDefinitions = (parseForceTorqueSensors ext cfg.force_torque []).2 ∧
    f.ftHandles = f.forceTorqueSensorDefinitions.map (fun d => (d.sensorName, d.sensorFrame)) ∧
    f.imuSensorDefinitions = [] ∧
    f.imuHandles = [] := by
  unfold initSim at h
  cases hp : processPairs (resourceInit ext) (allPairs cfg) [] with
  | none => rw [hp] at h; exact absurd h (by simp)
  | some res =>
    rw [hp] at h
    have hf := Option.some.inj h
    subst hf
    exact ⟨rfl, rfl, rfl, rfl, rfl, rfl⟩

theorem initSim_none_of_processPairs {cfg : Config} {ext : ExtModel}
    (h : processPairs (resourceInit ext) (allPairs cfg) [] = none) :
    initSim cfg ext = none := by
  unfold initSim
  rw [h]

theorem processPairs_mem (ext : ExtModel) :
    ∀ (pairs : List (String × String)) (acc res : List (String × Variant))
      (jn ifc : String) (v : Variant),
      processPairs (resourceInit ext) pairs acc = some res →
      (jn, ifc) ∈ pairs → ifaceToVariant ifc = some v → (jn, v) ∈ res
  | [], acc, res, jn, ifc, v, _, hmem, _ => absurd hmem (List.not_mem_nil _)
  | (jn', ifc') :: rest, acc, res, jn, ifc, v, h, hmem, hv => by
    rcases List.mem_cons.mp hmem with heq | htail
    · obtain ⟨h1, h2⟩ := Prod.mk.injEq .. ▸ heq
      subst h1; subst h2
      cases ho : resourceInit ext jn v acc with
      | success =>
        simp only [processPairs, hv, ho] at h
        exact (processPairs_subset_nodup ext rest _ res h).1
          (List.mem_append.mpr (Or.inr (List.mem_singleton.mpr rfl)))
      | existingResource =>
        have hin : (jn, v) ∈ acc := by
          by_contra hnin
          unfold resourceInit at ho
          simp [hnin] at ho
          split_ifs at ho
        simp only [processPairs, hv, ho] at h
        exact (processPairs_subset_nodup ext rest acc res h).1 hin
      | runtimeError => simp [processPairs, hv, ho] at h
      | otherError => simp [processPairs, hv, ho] at h
    · cases hv' : ifaceToVariant ifc' with
      | none =>
        rw [processPairs_skip _ jn' ifc' rest acc hv'] at h
        exact processPairs_mem ext rest acc res jn ifc v h htail hv
      | some v' =>
        cases ho : resourceInit ext jn' v' acc with
        | success =>
          simp only [processPairs, hv', ho] at h
          exact processPairs_mem ext rest _ res jn ifc v h htail hv
        | existingResource =>
          simp only [processPairs, hv', ho] at h
          exact processPairs_mem ext rest acc res jn ifc v h htail hv
        | runtimeError => simp [processPairs, hv', ho] at h
        | otherError => simp [processPairs, hv', ho] at h

/-! ### Claim theorems -/

/-- Claim C1 (code evaluation at the failing input): the spec demands that
an unresolvable force-torque attachment joint makes `initSim` fail, but
line 214 discards the return value of `parseForceTorqueSensors`, so with
sensor `ft0` attached to the absent joint `j1` the parse fails while
`initSim` still reports success. -/
theorem initSim_succeeds_despite_ft_parse_failure :
    (parseForceTorqueSensors extC1 cfgC1.force_torque []).1 = false ∧
    (initSim cfgC1 extC1).isSome = true :=
  ⟨rfl, rfl⟩

/-- Claim C2 (code evaluation at the failing input): the spec demands one
inertial definition and handle per declared IMU id, but `initSim` never
invokes `parseIMUSensors`, so with two declared ids and the external
source present the facade holds no inertial definitions and registers no
inertial handles — although the (dead) parser would have produced one
definition per id, each bound to the single source. -/
theorem initSim_registers_no_imu_definitions :
    cfgC2.imu ≠ [] ∧
    Option.map Facade.imuSensorDefinitions (initSim cfgC2 extC2) = some [] ∧
    Option.map Facade.imuHandles (initSim cfgC2 extC2) = some [] ∧
    parseIMUSensors extC2 cfgC2.imu []
      = (true, [⟨"imu0", "base", (0, 0, 0, 0), (0, 0, 0), (0, 0, 0)⟩,
                ⟨"imu1", "base", (0, 0, 0, 0), (0, 0, 0), (0, 0, 0)⟩]) :=
  ⟨by decide, rfl, rfl, rfl⟩

/-- Claim C3: if any pair visited by the factory loop names a recognized
interface type and a joint absent from the external model, `initSim`
returns failure, producing no facade at all (all-or-nothing at the facade
boundary). -/
theorem missing_joint_aborts_initSim (cfg : Config) (ext : ExtModel)
    (jn ifc : String) (v : Variant)
    (hmem : (jn, ifc) ∈ allPairs cfg) (hv : ifaceToVariant ifc = some v)
    (hjn : jn ∉ ext.joints) :
    initSim cfg ext = none :=
  initSim_none_of_processPairs
    (processPairs_none_of_missing ext (allPairs cfg) [] (by simp) jn ifc v hmem hv hjn)

/-- Witness for C3 at a concrete input: joint `j1` declared with the
position interface but absent from the external model. -/
theorem missing_joint_aborts_initSim_witness :
    ("j1", "hardware_interface/PositionJointInterface") ∈ allPairs cfgC3 ∧
    ifaceToVariant "hardware_interface/PositionJointInterface" = some Variant.positionJoint ∧
    "j1" ∉ extC1.joints ∧
    initSim cfgC3 extC1 = none :=
  ⟨by decide, by decide, by decide,
   missing_joint_aborts_initSim cfgC3 extC1 "j1" "hardware_interface/PositionJointInterface"
     Variant.positionJoint (by decide) (by decide) (by decide)⟩

/-- Claim C4: after a successful `initSim` the managed resource list holds
no duplicate (joint, variant) pair, and every pair declared with a
recognized interface type — in particular one declared twice via two
transmissions — is represented by exactly one resource. -/
theorem resources_unique_per_joint_variant (cfg : Config) (ext : ExtModel) (f : Facade)
    (hinit : initSim cfg ext = some f) :
    f.rw_resources.Nodup ∧
      ∀ jn ifc v, (jn, ifc) ∈ allPairs cfg → ifaceToVariant ifc = some v →
        f.rw_resources.count (jn, v) = 1 := by
  obtain ⟨hp, -, -, -, -, -⟩ := initSim_some_fields hinit
  have hnd := (processPairs_subset_nodup ext _ [] _ hp).2 List.nodup_nil
  exact ⟨hnd, fun jn ifc v hmem hv =>
    count_eq_one_of_nodup_mem hnd (processPairs_mem ext _ [] _ jn ifc v hp hmem hv)⟩

/-- Witness for C4 at a concrete input: `j1` declares the position
interface in two transmissions; exactly one resource results. -/
theorem resources_unique_per_joint_variant_witness :
    initSim cfgC4 extC4 = some facC4 ∧
    facC4.rw_resources.Nodup ∧
    facC4.rw_resources.count ("j1", Variant.positionJoint) = 1 :=
  ⟨rfl, (resources_unique_per_joint_variant cfgC4 extC4 facC4 rfl).1,
   (resources_unique_per_joint_variant cfgC4 extC4 facC4 rfl).2
     "j1" "hardware_interface/PositionJointInterface" Variant.positionJoint
     (by decide) (by decide)⟩

/-- Claim C5: a pair whose interface-type string is unrecognized creates
no resource and is skipped silently — removing all unrecognized pairs from
the visited sequence leaves the factory loop's outcome unchanged, so
initialization still succeeds exactly when the remaining pairs are valid. -/
theorem unrecognized_interface_skipped :
    (∀ (initFn : String → Variant → List (String × Variant) → InitOutcome)
       (jn ifc : String) (rest : List (String × String)) (acc : List (String × Variant)),
        ifaceToVariant ifc = none →
        processPairs initFn ((jn, ifc) :: rest) acc = processPairs initFn rest acc) ∧
    (∀ (initFn : String → Variant → List (String × Variant) → InitOutcome)
       (pairs : List (String × String)) (acc : List (String × Variant)),
        processPairs initFn pairs acc =
          processPairs initFn (pairs.filter fun p => (ifaceToVariant p.2).isSome) acc) :=
  ⟨processPairs_skip, processPairs_filter⟩

/-- Witness for C5 at a concrete input: an unrecognized interface string
on `j1` is skipped and does not change the loop's result. -/
theorem unrecognized_interface_skipped_witness :
    ifaceToVariant "my_custom_interface/FooInterface" = none ∧
    processPairs (resourceInit extC4)
        [("j1", "my_custom_interface/FooInterface"),
         ("j1", "hardware_interface/PositionJointInterface")] [] =
      processPairs (resourceInit extC4)
        [("j1", "hardware_interface/PositionJointInterface")] [] :=
  ⟨by decide,
   unrecognized_interface_skipped.1 (resourceInit extC4) "j1"
     "my_custom_interface/FooInterface"
     [("j1", "hardware_interface/PositionJointInterface")] [] (by decide)⟩

/-- Claim C6: a resource init outcome other than success or the duplicate
condition — the runtime-error branch (e.g. joint not found) as well as the
catch-all branch — makes the factory loop, and with it `initSim`, abort
with failure. -/
theorem nonduplicate_failure_fatal :
    (∀ (initFn : String → Variant → List (String × Variant) → InitOutcome)
       (jn ifc : String) (v : Variant) (rest : List (String × String))
       (acc : List (String × Variant)),
        ifaceToVariant ifc = some v →
        (initFn jn v acc = InitOutcome.runtimeError ∨
          initFn jn v acc = InitOutcome.otherError) →
        processPairs initFn ((jn, ifc) :: rest) acc = none) ∧
    (∀ (cfg : Config) (ext : ExtModel),
        processPairs (resourceInit ext) (allPairs cfg) [] = none →
        initSim cfg ext = none) :=
  ⟨processPairs_fatal, fun _ _ h => initSim_none_of_processPairs h⟩

/-- Witness for C6 at a concrete input: `j1` is declared with the position
interface but missing from the empty external model, so its init raises
the runtime-error outcome and both the loop and `initSim` return failure. -/
theorem nonduplicate_failure_fatal_witness :
    ifaceToVariant "hardware_interface/PositionJointInterface" = some Variant.positionJoint ∧
    resourceInit extC1 "j1" Variant.positionJoint [] = InitOutcome.runtimeError ∧
    processPairs (resourceInit extC1)
      [("j1", "hardware_interface/PositionJointInterface")] [] = none ∧
    initSim cfgC3 extC1 = none := by
  have hfatal := nonduplicate_failure_fatal.1 (resourceInit extC1) "j1"
    "hardware_interface/PositionJointInterface" Variant.positionJoint [] []
    (by decide) (Or.inl (by decide))
  exact ⟨by decide, by decide, hfatal, nonduplicate_failure_fatal.2 cfgC3 extC1 hfatal⟩

/-! ### Helper lemmas about the read/write cycle -/

theorem resourceWrite_pos (f : Facade) (e : Bool) (w : World) (r : String × Variant) :
    (resourceWrite f e w r).pos = w.pos := by
  rcases r with ⟨j, v⟩
  cases v <;> rfl

theorem resourceWrite_cmdOf_ne (f : Facade) (e : Bool) (w : World) :
    ∀ (r : String × Variant) (j : String) (v : Variant), (j, v) ≠ r →
      (resourceWrite f e w r).cmdOf j v = w.cmdOf j v
  | (j', v'), j, v, h => by
    by_cases hj : j = j'
    · subst hj
      have hv : v ≠ v' := fun hv => h (by rw [hv])
      cases v' <;> cases v <;>
        first
          | exact absurd rfl hv
          | simp [resourceWrite, World.cmdOf]
    · cases v' <;> cases v <;> simp [resourceWrite, World.cmdOf, hj]

theorem foldWrite_cmdOf_notMem (f : Facade) (e : Bool) :
    ∀ (l : List (String × Variant)) (w : World) (j : String) (v : Variant),
      (j, v) ∉ l →
      (l.foldl (resourceWrite f e) w).cmdOf j v = w.cmdOf j v
  | [], _, _, _, _ => rfl
  | r :: l, w, j, v, h => by
    rw [List.foldl_cons,
        foldWrite_cmdOf_notMem f e l _ j v (fun hl => h (List.mem_cons_of_mem r hl)),
        resourceWrite_cmdOf_ne f e w r j v
          (fun he => h (by rw [he]; exact List.mem_cons_self r l))]

theorem resourceWrite_cmdOf_self_estop (f : Facade) (w : World) (j : String) (v : Variant) :
    (resourceWrite f true w (j, v)).cmdOf j v = safeValue w j v := by
  cases v <;> simp [resourceWrite, World.cmdOf, safeValue]

theorem safeValue_resourceWrite (f : Facade) (e : Bool) (w : World)
    (r : String × Variant) (j : String) (v : Variant) :
    safeValue (resourceWrite f e w r) j v = safeValue w j v := by
  cases v <;> simp [safeValue, resourceWrite_pos]

theorem foldWrite_estop_safe (f : Facade) :
    ∀ (l : List (String × Variant)) (w : World) (j : String) (v : Variant),
      (j, v) ∈ l →
      (l.foldl (resourceWrite f true) w).cmdOf j v = safeValue w j v
  | r :: l, w, j, v, h => by
    rw [List.foldl_cons]
    by_cases hmem : (j, v) ∈ l
    · rw [foldWrite_estop_safe f l _ j v hmem, safeValue_resourceWrite]
    · have hr : (j, v) = r := by
        rcases List.mem_cons.mp h with h1 | h2
        · exact h1
        · exact absurd h2 hmem
      rw [foldWrite_cmdOf_notMem f true l _ j v hmem, ← hr,
          resourceWrite_cmdOf_self_estop]

theorem foldRead_defs (w : World) (e : Bool) :
    ∀ (l : List (String × Variant)) (g : Facade),
      (l.foldl (resourceRead w e) g).forceTorqueSensorDefinitions
          = g.forceTorqueSensorDefinitions ∧
      (l.foldl (resourceRead w e) g).imuSensorDefinitions = g.imuSensorDefinitions
  | [], _ => ⟨rfl, rfl⟩
  | r :: l, g => by
    rw [List.foldl_cons]
    exact foldRead_defs w e l _

theorem foldRead_buf (w : World) (e : Bool) :
    ∀ (l : List (String × Variant)) (g : Facade) (j : String),
      ((l.foldl (resourceRead w e) g).bufPos j
          = if j ∈ l.map Prod.fst then w.pos j else g.bufPos j) ∧
      ((l.foldl (resourceRead w e) g).bufVel j
          = if j ∈ l.map Prod.fst then w.vel j else g.bufVel j) ∧
      ((l.foldl (resourceRead w e) g).bufEff j
          = if j ∈ l.map Prod.fst then w.eff j else g.bufEff j)
  | [], g, j => by simp
  | r :: l, g, j => by
    rw [List.foldl_cons]
    obtain ⟨h1, h2, h3⟩ := foldRead_buf w e l (resourceRead w e g r) j
    rw [List.map_cons]
    by_cases hj : j ∈ l.map Prod.fst
    · simp [h1, h2, h3, hj]
    · by_cases hr : j = r.1
      · refine ⟨?_, ?_, ?_⟩
        · rw [h1, if_neg hj]; simp [resourceRead, hr]
        · rw [h2, if_neg hj]; simp [resourceRead, hr]
        · rw [h3, if_neg hj]; simp [resourceRead, hr]
      · refine ⟨?_, ?_, ?_⟩
        · rw [h1, if_neg hj]; simp [resourceRead, hr, hj]
        · rw [h2, if_neg hj]; simp [resourceRead, hr, hj]
        · rw [h3, if_neg hj]; simp [resourceRead, hr, hj]

theorem parseFT_fail (ext : ExtModel) :
    ∀ (pre : List FTSensorParams) (bad : FTSensorParams) (post : List FTSensorParams)
      (acc : List ForceTorqueSensorDefinition),
      (∀ c ∈ pre, c.sensor_joint ∈ ext.joints) →
      bad.sensor_joint ∉ ext.joints →
      parseForceTorqueSensors ext (pre ++ bad :: post) acc = (false, acc ++ pre.map ftDefOf)
  | [], bad, post, acc, _, hbad => by
    simp [parseForceTorqueSensors, hbad]
  | c :: pre, bad, post, acc, hpre, hbad => by
    have hc : c.sensor_joint ∈ ext.joints := hpre c (List.mem_cons_self c pre)
    rw [List.cons_append]
    show (if c.sensor_joint ∈ ext.joints then
            parseForceTorqueSensors ext (pre ++ bad :: post)
              (acc ++ [⟨c.id, c.sensor_joint, c.frame, (0, 0, 0), (0, 0, 0)⟩])
          else (false, acc)) = (false, acc ++ (c :: pre).map ftDefOf)
    rw [if_pos hc,
        parseFT_fail ext pre bad post _
          (fun x hx => hpre x (List.mem_cons_of_mem c hx)) hbad]
    simp [ftDefOf]

/-- Claim C7: a resource absent from the active-writer set receives no
write during `writeSim`: its external command target is left unchanged for
the cycle, and the facade — in particular every command buffer — is
untouched. -/
theorem writeSim_inactive_untouched (f : Facade) (w : World) (j : String) (v : Variant)
    (h : (j, v) ∉ f.active_w_resources) :
    ((writeSim f w).2).cmdOf j v = w.cmdOf j v ∧ (writeSim f w).1 = f :=
  ⟨foldWrite_cmdOf_notMem f f.e_stop_active f.active_w_resources w j v h, rfl⟩

/-- Witness for C7 at a concrete input: the inactive velocity resource on
`j2` keeps its external velocity command target unchanged. -/
theorem writeSim_inactive_untouched_witness :
    ("j2", Variant.velocityJoint) ∉ facFix.active_w_resources ∧
    ((writeSim facFix wFix).2).cmdOf "j2" Variant.velocityJoint
      = wFix.cmdOf "j2" Variant.velocityJoint ∧
    (writeSim facFix wFix).1 = facFix :=
  ⟨by decide,
   (writeSim_inactive_untouched facFix wFix "j2" Variant.velocityJoint (by decide)).1,
   (writeSim_inactive_untouched facFix wFix "j2" Variant.velocityJoint (by decide)).2⟩

/-- Claim C8: `readSim` reads every managed resource's state buffers from
the external source and refreshes every force-torque definition from its
attachment joint and every inertial definition from its external source,
each exactly once (expressed by the buffers holding exactly the source's
current values afterwards); `writeSim` never mutates any sensor
definition buffer (it returns the facade unchanged). -/
theorem readSim_refreshes_all (f : Facade) (w : World) :
    (∀ r ∈ f.rw_resources,
        (readSim f w).bufPos r.1 = w.pos r.1 ∧
        (readSim f w).bufVel r.1 = w.vel r.1 ∧
        (readSim f w).bufEff r.1 = w.eff r.1) ∧
    (readSim f w).forceTorqueSensorDefinitions
        = f.forceTorqueSensorDefinitions.map (ftRefresh w) ∧
    (readSim f w).imuSensorDefinitions = f.imuSensorDefinitions.map (imuRefresh w) ∧
    (writeSim f w).1 = f := by
  obtain ⟨hft, himu⟩ := foldRead_defs w f.e_stop_active f.rw_resources f
  refine ⟨fun r hr => ?_, by simp [readSim, hft], by simp [readSim, himu], rfl⟩
  have hmem : r.1 ∈ f.rw_resources.map Prod.fst := List.mem_map_of_mem _ hr
  obtain ⟨h1, h2, h3⟩ := foldRead_buf w f.e_stop_active f.rw_resources f r.1
  exact ⟨by simp [readSim, h1, hmem], by simp [readSim, h2, hmem],
         by simp [readSim, h3, hmem]⟩

/-- Witness for C8 at a concrete input: after `readSim` the position
resource's buffers and both sensor definitions hold the source values,
and `writeSim` leaves the facade unchanged. -/
theorem readSim_refreshes_all_witness :
    ("j1", Variant.positionJoint) ∈ facFix.rw_resources ∧
    (readSim facFix wFix).bufPos "j1" = wFix.pos "j1" ∧
    (readSim facFix wFix).bufVel "j1" = wFix.vel "j1" ∧
    (readSim facFix wFix).bufEff "j1" = wFix.eff "j1" ∧
    (readSim facFix wFix).forceTorqueSensorDefinitions
      = facFix.forceTorqueSensorDefinitions.map (ftRefresh wFix) ∧
    (readSim facFix wFix).imuSensorDefinitions
      = facFix.imuSensorDefinitions.map (imuRefresh wFix) ∧
    (writeSim facFix wFix).1 = facFix := by
  have h := readSim_refreshes_all facFix wFix
  have hb := h.1 ("j1", Variant.positionJoint) (by decide)
  exact ⟨by decide, hb.1, hb.2.1, hb.2.2, h.2.1, h.2.2.1, h.2.2.2⟩

/-- Claim C9: `initSim` clears the single emergency-stop flag, the flag is
the one passed to every write invocation, and when it is asserted every
active resource's command target receives the variant's safe value (hold
position, zero velocity, zero effort) regardless of its command buffer,
while the facade — including the active-writer set — is unchanged. -/
theorem estop_false_at_init_and_safe_write (cfg : Config) (ext : ExtModel)
    (f g : Facade) (w : World) (j : String) (v : Variant)
    (hinit : initSim cfg ext = some f)
    (hstop : g.e_stop_active = true)
    (hact : (j, v) ∈ g.active_w_resources) :
    f.e_stop_active = false ∧
    ((writeSim g w).2).cmdOf j v = safeValue w j v ∧
    (writeSim g w).1 = g := by
  refine ⟨(initSim_some_fields hinit).2.1, ?_, rfl⟩
  show (g.active_w_resources.foldl (resourceWrite g g.e_stop_active) w).cmdOf j v
      = safeValue w j v
  rw [hstop]
  exact foldWrite_estop_safe g g.active_w_resources w j v hact

/-- Witness for C9 at a concrete input: `initSim` yields a facade with the
flag clear, and with the flag asserted the active position resource on
`j1` gets the hold-position safe value instead of its command buffer. -/
theorem estop_false_at_init_and_safe_write_witness :
    initSim cfgC4 extC4 = some facC4 ∧
    facFixEStop.e_stop_active = true ∧
    ("j1", Variant.positionJoint) ∈ facFixEStop.active_w_resources ∧
    facC4.e_stop_active = false ∧
    ((writeSim facFixEStop wFix).2).cmdOf "j1" Variant.positionJoint
      = safeValue wFix "j1" Variant.positionJoint ∧
    (writeSim facFixEStop wFix).1 = facFixEStop := by
  have h := estop_false_at_init_and_safe_write cfgC4 extC4 facC4 facFixEStop wFix
    "j1" Variant.positionJoint rfl (by decide) (by decide)
  exact ⟨rfl, by decide, by decide, h.1, h.2.1, h.2.2⟩

/-- Claim C10: when force-torque parsing fails at a sensor whose
attachment joint is unresolvable, it returns failure without rollback:
the definitions parsed before the failing one are retained, the failing
sensor's definition is not appended, and `initSim` registers a
force-torque handle for each retained definition. -/
theorem ft_parse_no_rollback (ext : ExtModel) (cfg : Config)
    (pre : List FTSensorParams) (bad : FTSensorParams) (post : List FTSensorParams)
    (f : Facade)
    (hcfg : cfg.force_torque = pre ++ bad :: post)
    (hpre : ∀ c ∈ pre, c.sensor_joint ∈ ext.joints)
    (hbad : bad.sensor_joint ∉ ext.joints)
    (hinit : initSim cfg ext = some f) :
    parseForceTorqueSensors ext cfg.force_torque [] = (false, pre.map ftDefOf) ∧
    f.forceTorqueSensorDefinitions = pre.map ftDefOf ∧
    f.ftHandles = (pre.map ftDefOf).map fun d => (d.sensorName, d.sensorFrame) := by
  have hparse : parseForceTorqueSensors ext cfg.force_torque [] = (false, pre.map ftDefOf) := by
    rw [hcfg, parseFT_fail ext pre bad post [] hpre hbad]
    simp
  obtain ⟨-, -, hdefs, hhandles, -, -⟩ := initSim_some_fields hinit
  refine ⟨hparse, ?_, ?_⟩
  · rw [hdefs, hparse]
  · rw [hhandles, hdefs, hparse]

/-- Witness for C10 at a concrete input: `ft0` on the resolvable joint
`j1` is retained with a registered handle while parsing fails on `ft1`
whose joint `jmiss` is absent. -/
theorem ft_parse_no_rollback_witness :
    initSim cfgC10 extC10 = some facC10 ∧
    FTSensorParams.sensor_joint ⟨"ft1", "frame1", "jmiss"⟩ ∉ extC10.joints ∧
    parseForceTorqueSensors extC10 cfgC10.force_torque []
      = (false, [⟨"ft0", "frame0", "j1"⟩].map ftDefOf) ∧
    facC10.forceTorqueSensorDefinitions = [⟨"ft0", "frame0", "j1"⟩].map ftDefOf ∧
    facC10.ftHandles
      = ([⟨"ft0", "frame0", "j1"⟩].map ftDefOf).map fun d => (d.sensorName, d.sensorFrame) := by
  have h := ft_parse_no_rollback extC10 cfgC10 [⟨"ft0", "frame0", "j1"⟩]
    ⟨"ft1", "frame1", "jmiss"⟩ [] facC10 rfl (by decide) (by decide) rfl
  exact ⟨rfl, by decide, h.1, h.2.1, h.2.2⟩
